import Mathlib

/-!
Verification of the Mini-PestMA extraction-and-recovery core.

This file gives a shallow embedding of the two source files
`mini_pestma_main.py` (class `LocalMiniPestMA`) and
`streamlit_optimized_app.py` (class `StreamlitMiniPestMA`):

* `Json` models Python values produced by `json.loads`;
* `jsonParse` models `json.loads` (shared standard library for both classes);
* `findallPattern1` / `findallPattern2` model `re.findall` of the two
  brace-scanning patterns used by `_extract_json`;
* `fenceTaggedGroup` / `fenceAnyGroup` model `re.search` of the code-fence
  marker patterns;
* `LocalMiniPestMA.extract_json` / `StreamlitMiniPestMA.extract_json`
  model the `_extract_json` cascade of each class;
* `LocalMiniPestMA.create_fallback_json` / `StreamlitMiniPestMA.create_fallback_json`
  model `_create_fallback_json` of each class;
* `LocalMiniPestMA.analyze_plant_problem` models the CLI three-stage
  orchestrator, with the `ollama.generate` collaborator abstracted as an
  oracle function `StageCall → CollabResult` and the wall-clock `time`
  and constant `model` fields of the result dictionaries omitted.

A central fact about the source: `_extract_json`, when its whole cascade
fails, executes `raise json.JSONDecodeError(f"Could not extract valid JSON
from: {text[:200]}...")`.  `json.JSONDecodeError.__init__` requires three
positional arguments `(msg, doc, pos)`, so this one-argument construction
itself fails with `TypeError`; the cascade's failure therefore surfaces as
`TypeError`, never as `json.JSONDecodeError`.  The embedding models Python
exceptions with the `PyExc` type so the orchestrator's
`except json.JSONDecodeError` / `except Exception` handlers can be embedded
faithfully.
-/

/-- A Python value as produced by `json.loads`.  Integer literals become
Python `int` (`num`); literals with a fraction or exponent become `float`,
modelled by their lexeme (`numF`) since the claims never compare float
values; `NaN`, `Infinity` and `-Infinity` are accepted by `json.loads` by
default.  A Python `dict` is modelled as its key/value list in insertion
order; duplicate keys are overwritten in place during parsing
(`insertField`), matching CPython `dict` update semantics. -/
inductive Json where
  | null
  | bool (b : Bool)
  | num (n : Int)
  | numF (lexeme : String)
  | nan
  | inf
  | ninf
  | str (s : String)
  | arr (elems : List Json)
  | obj (fields : List (String × Json))

/-- A Python exception as visible to the orchestrator's handlers. -/
inductive PyExc where
  | jsonDecodeError (msg : String)
  | typeError (msg : String)

def PyExc.isJsonDecodeError : PyExc → Bool
  | .jsonDecodeError _ => true
  | .typeError _ => false

/-- `str(e)` of the exception. -/
def PyExc.msg : PyExc → String
  | .jsonDecodeError m => m
  | .typeError m => m

/-- The message of the `TypeError` raised when `json.JSONDecodeError` is
constructed with a single argument (quotes of the original Python message
elided). -/
def typeErrorMsg : String :=
  "JSONDecodeError.__init__() missing 2 required positional arguments: doc and pos"

/-- The message the source intends to attach at the failure site
(`f"Could not extract valid JSON from: {text[:200]}..."`); it is never
actually built, because the exception construction fails first. -/
def extract_fail_msg (text : String) : String :=
  "Could not extract valid JSON from: " ++ String.mk (text.data.take 200) ++ "..."

/-- Python `str.strip()` whitespace (ASCII part of the set). -/
def pyIsSpace (c : Char) : Bool :=
  c == ' ' || c == '\t' || c == '\n' || c == '\r' || c == '\x0b' || c == '\x0c'

def pyStripChars (cs : List Char) : List Char :=
  ((cs.dropWhile pyIsSpace).reverse.dropWhile pyIsSpace).reverse

/-- Python `text.strip()`. -/
def pyStrip (s : String) : String :=
  String.mk (pyStripChars s.data)

/-- JSON inter-token whitespace accepted by `json.loads` (` \t\n\r`). -/
def isJsonWs (c : Char) : Bool :=
  c == ' ' || c == '\t' || c == '\n' || c == '\r'

def charsStartWith : List Char → List Char → Bool
  | [], _ => true
  | _ :: _, [] => false
  | n :: ns, c :: cs => n == c && charsStartWith ns cs

def hexVal (c : Char) : Option Nat :=
  let n := c.toNat
  if 48 ≤ n && n ≤ 57 then some (n - 48)
  else if 97 ≤ n && n ≤ 102 then some (n - 87)
  else if 65 ≤ n && n ≤ 70 then some (n - 55)
  else none

def hex4 (a b c d : Char) : Option Nat :=
  match hexVal a, hexVal b, hexVal c, hexVal d with
  | some x, some y, some z, some w => some (x * 4096 + y * 256 + z * 16 + w)
  | _, _, _, _ => none

/-- Body of a JSON string literal after the opening quote: decoded
characters and the remaining input after the closing quote.  Escapes follow
`json.decoder` in strict mode: raw control characters below `0x20` are
rejected, `\uXXXX` escapes are decoded and surrogate pairs are combined.
(Python keeps a lone surrogate in the `str`; a lone surrogate is not a Lean
`Char`, so it goes through `Char.ofNat`; no claim involves surrogates.) -/
def parseStringAux : Nat → List Char → Option (List Char × List Char)
  | 0, _ => none
  | Nat.succ _, [] => none
  | Nat.succ fuel, cs =>
    match cs with
    | [] => none
    | '"' :: rest => some ([], rest)
    | '\\' :: 'u' :: a :: b :: c :: d :: rest =>
      match hex4 a b c d with
      | none => none
      | some n =>
        -- the surrogate block runs from 55296 to 57343; the high half ends
        -- at 56319, and a high/low pair combines into a supplementary
        -- code point
        if 55296 ≤ n ∧ n ≤ 56319 then
          match rest with
          | '\\' :: 'u' :: e :: f :: g :: h :: rest2 =>
            match hex4 e f g h with
            | some m =>
              if 56320 ≤ m ∧ m ≤ 57343 then
                (parseStringAux fuel rest2).map
                  (fun p => (Char.ofNat (65536 + 1024 * (n - 55296) + (m - 56320)) :: p.1, p.2))
              else
                (parseStringAux fuel rest).map (fun p => (Char.ofNat n :: p.1, p.2))
            | none => (parseStringAux fuel rest).map (fun p => (Char.ofNat n :: p.1, p.2))
          | _ => (parseStringAux fuel rest).map (fun p => (Char.ofNat n :: p.1, p.2))
        else
          (parseStringAux fuel rest).map (fun p => (Char.ofNat n :: p.1, p.2))
    | '\\' :: c :: rest =>
      -- the table of two-character escapes of `json.decoder` (`\u` is the
      -- six-character escape handled above)
      let e? : Option Char :=
        (List.lookup c [('"', 34), ('\\', 92), ('/', 47), ('b', 8),
          ('f', 12), ('n', 10), ('r', 13), ('t', 9)]).map Char.ofNat
      match e? with
      | some e => (parseStringAux fuel rest).map (fun p => (e :: p.1, p.2))
      | none => none
    | c :: rest =>
      if c.toNat < 32 then none
      else (parseStringAux fuel rest).map (fun p => (c :: p.1, p.2))

def parseStringBody (cs : List Char) : Option (List Char × List Char) :=
  parseStringAux (cs.length + 1) cs

/-- Split off the maximal run of decimal digits. -/
def takeDigits (cs : List Char) : List Char × List Char :=
  (cs.takeWhile Char.isDigit, cs.dropWhile Char.isDigit)

def digitsToNatAux (acc : Nat) : List Char → Nat
  | [] => acc
  | c :: cs => digitsToNatAux (10 * acc + (c.toNat - 48)) cs

def digitsToNat (ds : List Char) : Nat :=
  digitsToNatAux 0 ds

/-- Optional fraction and exponent of the `NUMBER_RE` regex of
`json.decoder` (`(\.\d+)?([eE][+-]?\d+)?`); a malformed group is simply not
matched, leaving its characters unconsumed. -/
def finishNumber (sgn intPart rest : List Char) : Option (Json × List Char) :=
  let fracRes : List Char × List Char :=
    match rest with
    | '.' :: r =>
      match takeDigits r with
      | ([], _) => ([], rest)
      | (ds, r2) => ('.' :: ds, r2)
    | _ => ([], rest)
  let fracPart := fracRes.1
  let r1 := fracRes.2
  let expRes : List Char × List Char :=
    match r1 with
    | e :: r =>
      if e == 'e' || e == 'E' then
        match r with
        | s :: r3 =>
          if s == '+' || s == '-' then
            match takeDigits r3 with
            | ([], _) => ([], r1)
            | (ds, r4) => (e :: s :: ds, r4)
          else
            match takeDigits r with
            | ([], _) => ([], r1)
            | (ds, r4) => (e :: ds, r4)
        | [] => ([], r1)
      else ([], r1)
    | [] => ([], r1)
  let expPart := expRes.1
  let r2 := expRes.2
  if fracPart.isEmpty && expPart.isEmpty then
    let n : Int := Int.ofNat (digitsToNat intPart)
    some (.num (if sgn.isEmpty then n else -n), r2)
  else
    some (.numF (String.mk (sgn ++ intPart ++ fracPart ++ expPart)), r2)

/-- The integer part of `NUMBER_RE`: `-?(0|[1-9]\d*)`. -/
def parseNumberAux (cs : List Char) : Option (Json × List Char) :=
  let sgnSplit : List Char × List Char :=
    match cs with
    | '-' :: r => (['-'], r)
    | _ => ([], cs)
  let sgn := sgnSplit.1
  match sgnSplit.2 with
  | c :: r =>
    if c == '0' then finishNumber sgn ['0'] r
    else if c.isDigit then
      let (ds, r2) := takeDigits r
      finishNumber sgn (c :: ds) r2
    else none
  | [] => none

/-- CPython `dict` update: a duplicate key overwrites the value in place,
keeping the original position; a new key is appended. -/
def insertField : List (String × Json) → String → Json → List (String × Json)
  | [], k, v => [(k, v)]
  | (k', v') :: rest, k, v =>
    if k' == k then (k', v) :: rest else (k', v') :: insertField rest k v

mutual

/-- One JSON value, modelling the scanner of `json.decoder`: leading
whitespace is skipped; objects, arrays, strings, the literal names, the
non-standard constants `NaN`/`Infinity`/`-Infinity`, and numbers.  `fuel`
bounds the call depth; `jsonParse` supplies more fuel than any input can
consume. -/
def parseValue : Nat → List Char → Option (Json × List Char)
  | 0, _ => none
  | Nat.succ fuel, cs0 =>
    let cs := cs0.dropWhile isJsonWs
    match cs with
    | [] => none
    | '"' :: rest => (parseStringBody rest).map (fun p => (Json.str (String.mk p.1), p.2))
    | '\x7b' :: rest =>
      let cs2 := rest.dropWhile isJsonWs
      match cs2 with
      | '\x7d' :: r => some (Json.obj [], r)
      | _ => parseObjectItems fuel cs2 []
    | '[' :: rest =>
      let cs2 := rest.dropWhile isJsonWs
      match cs2 with
      | ']' :: r => some (Json.arr [], r)
      | _ => parseArrayItems fuel cs2 []
    | _ =>
      if charsStartWith "true".data cs then some (Json.bool true, cs.drop 4)
      else if charsStartWith "false".data cs then some (Json.bool false, cs.drop 5)
      else if charsStartWith "null".data cs then some (Json.null, cs.drop 4)
      else if charsStartWith "NaN".data cs then some (Json.nan, cs.drop 3)
      else if charsStartWith "Infinity".data cs then some (Json.inf, cs.drop 8)
      else if charsStartWith "-Infinity".data cs then some (Json.ninf, cs.drop 9)
      else parseNumberAux cs

/-- `"key" : value` pairs of an object body, positioned at a key. -/
def parseObjectItems : Nat → List Char → List (String × Json) → Option (Json × List Char)
  | 0, _, _ => none
  | Nat.succ fuel, cs, acc =>
    match cs with
    | '"' :: rest =>
      match parseStringBody rest with
      | some (k, r1) =>
        match r1.dropWhile isJsonWs with
        | ':' :: r2 =>
          match parseValue fuel r2 with
          | some (v, r3) =>
            let acc2 := insertField acc (String.mk k) v
            match r3.dropWhile isJsonWs with
            | ',' :: r4 => parseObjectItems fuel (r4.dropWhile isJsonWs) acc2
            | '\x7d' :: r4 => some (Json.obj acc2, r4)
            | _ => none
          | none => none
        | _ => none
      | none => none
    | _ => none

/-- Elements of an array body, positioned at a value. -/
def parseArrayItems : Nat → List Char → List Json → Option (Json × List Char)
  | 0, _, _ => none
  | Nat.succ fuel, cs, acc =>
    match parseValue fuel cs with
    | some (v, r) =>
      match r.dropWhile isJsonWs with
      | ',' :: r2 => parseArrayItems fuel r2 (acc ++ [v])
      | ']' :: r2 => some (Json.arr (acc ++ [v]), r2)
      | _ => none
    | none => none

end

/-- Python `json.loads`: one value, then only whitespace may remain
(otherwise `Extra data`, modelled as `none`).  The fuel bound exceeds the
maximal possible call depth for the input. -/
def jsonParse (s : String) : Option Json :=
  match parseValue (2 * s.length + 4) s.data with
  | some (v, rest) => if (rest.dropWhile isJsonWs).isEmpty then some v else none
  | none => none

/-! ## The brace-scanning patterns

`_extract_json` scans with `re.findall` for two patterns (`re.DOTALL`):

* pattern 1: a brace-delimited substring whose body is runs of non-brace
  characters interleaved with one-level nested objects, closed at the first
  top-level closing brace;
* pattern 2: a brace-delimited substring whose body is single non-brace
  characters or one-level nested objects, closed at the first top-level
  closing brace.

Every quantifier in both patterns is over character classes that exclude
braces, so the backtracking search is deterministic: each `[^{}]*` run is
forced maximal (shorter runs leave the engine at a non-brace character where
neither alternative can continue), and the match at a given start position
either follows the single forced path to the first top-level closing brace
or fails.  `re.findall` attempts a match at each position left to right and
resumes after the end of each match.  The scanners below implement exactly
that forced path for each pattern. -/

def isNonBrace (c : Char) : Bool :=
  !(c == '\x7b' || c == '\x7d')

/-- Split off the maximal run matching `[^{}]*` (forced maximal, see
above). -/
def takeNonBrace (cs : List Char) : List Char × List Char :=
  (cs.takeWhile isNonBrace, cs.dropWhile isNonBrace)

/-- Pattern 1 body after the opening brace:
`[^{}]*(?:\{[^{}]*\}[^{}]*)*\}`.  Returns the consumed characters
(including the final closing brace) and the rest. -/
def matchP1Body : Nat → List Char → Option (List Char × List Char)
  | 0, _ => none
  | Nat.succ fuel, cs =>
    let (a, r1) := takeNonBrace cs
    match r1 with
    | '\x7d' :: rest => some (a ++ ['\x7d'], rest)
    | '\x7b' :: r2 =>
      let (b, r3) := takeNonBrace r2
      match r3 with
      | '\x7d' :: r4 =>
        match matchP1Body fuel r4 with
        | some (tail, rest) => some (a ++ '\x7b' :: b ++ '\x7d' :: tail, rest)
        | none => none
      | _ => none
    | _ => none

/-- Pattern 2 body after the opening brace:
`(?:[^{}]|(?:\{[^{}]*\}))*\}`. -/
def matchP2Body : Nat → List Char → Option (List Char × List Char)
  | 0, _ => none
  | Nat.succ fuel, cs =>
    match cs with
    | [] => none
    | '\x7d' :: rest => some (['\x7d'], rest)
    | '\x7b' :: r2 =>
      let (b, r3) := takeNonBrace r2
      match r3 with
      | '\x7d' :: r4 =>
        match matchP2Body fuel r4 with
        | some (tail, rest) => some ('\x7b' :: b ++ '\x7d' :: tail, rest)
        | none => none
      | _ => none
    | c :: rest =>
      match matchP2Body fuel rest with
      | some (tail, r) => some (c :: tail, r)
      | none => none

/-- `re.findall` driver: try a match at each position, left to right,
resuming after the end of each match (both patterns only match at an
opening brace). -/
def findallAux (body : Nat → List Char → Option (List Char × List Char)) :
    Nat → List Char → List String
  | 0, _ => []
  | _, [] => []
  | Nat.succ fuel, c :: rest =>
    if c == '\x7b' then
      match body (rest.length + 1) rest with
      | some (consumed, rest2) => String.mk ('\x7b' :: consumed) :: findallAux body fuel rest2
      | none => findallAux body fuel rest
    else findallAux body fuel rest

def findallPattern1 (text : String) : List String :=
  findallAux matchP1Body (text.length + 1) text.data

def findallPattern2 (text : String) : List String :=
  findallAux matchP2Body (text.length + 1) text.data

/-! ## The fence-marker patterns

The marker list holds three `re.search` patterns (all `re.DOTALL`):
a fenced block tagged `json`, any fenced block, and a first-to-last brace
span.  The fence patterns are `OPEN \s* (.*?) \s* CLOSE` with a lazy group:
the leading `\s*` is greedy, the group is the shortest text reaching a
position from which whitespace runs up to the earliest subsequent fence
token.  Net effect: group(1) is the text between the opening token and the
first following close token, stripped of whitespace on both ends (regex
`\s` and Python `str.strip` agree on the ASCII whitespace involved).
`re.search` tries start positions left to right, so an opening token
without any following close token is skipped. -/

def subSplit (needle : List Char) : Nat → List Char → Option (List Char × List Char)
  | 0, _ => none
  | Nat.succ fuel, hay =>
    if charsStartWith needle hay then some ([], hay.drop needle.length)
    else
      match hay with
      | [] => none
      | c :: rest =>
        match subSplit needle fuel rest with
        | some (b, a) => some (c :: b, a)
        | none => none

def fenceAux (openTok closeTok : List Char) : Nat → List Char → Option String
  | 0, _ => none
  | Nat.succ fuel, hay =>
    if charsStartWith openTok hay then
      let after := hay.drop openTok.length
      match subSplit closeTok (after.length + 1) after with
      | some (before, _) => some (String.mk (pyStripChars before))
      | none =>
        match hay with
        | [] => none
        | _ :: rest => fenceAux openTok closeTok fuel rest
    else
      match hay with
      | [] => none
      | _ :: rest => fenceAux openTok closeTok fuel rest

def backticks3 : List Char := ['\x60', '\x60', '\x60']

/-- group(1) of `re.search` for the first marker pattern (fenced block
tagged `json`). -/
def fenceTaggedGroup (text : String) : Option String :=
  fenceAux (backticks3 ++ "json".data) backticks3 (text.length + 1) text.data

/-- group(1) of `re.search` for the second marker pattern (any fenced
block). -/
def fenceAnyGroup (text : String) : Option String :=
  fenceAux backticks3 backticks3 (text.length + 1) text.data

/-! ## The extraction cascade -/

/-- The inner loop of the pattern-scanning step: for every match, in the
order found, `cleaned = match.strip()` then `json.loads(cleaned)`;
the first successful parse is returned. -/
def try_candidates : List String → Option Json
  | [] => none
  | m :: ms =>
    match jsonParse (pyStrip m) with
    | some j => some j
    | none => try_candidates ms

/-- The marker loop, markers two and three: any fenced block, then the
first-to-last brace span `\{.*\}`.  The third pattern has no capture
group, so `match.group(1)` raises `IndexError`, which the
`except (json.JSONDecodeError, IndexError)` clause catches; the third
marker therefore never yields a candidate. -/
def try_markers_rest (text : String) : Option Json :=
  match fenceAnyGroup text with
  | some g => jsonParse (pyStrip g)
  | none => none

/-- The marker loop: fenced block tagged `json`, then the rest. -/
def try_markers (text : String) : Option Json :=
  match fenceTaggedGroup text with
  | some g =>
    match jsonParse (pyStrip g) with
    | some j => some j
    | none => try_markers_rest text
  | none => try_markers_rest text

namespace LocalMiniPestMA

/-- `LocalMiniPestMA._extract_json` (`mini_pestma_main.py`, lines 144-182):
direct parse of the stripped text; then every match of the two brace
patterns in order; then the fence markers; if no candidate parses, the
single-argument `json.JSONDecodeError` construction at the raise site
itself fails, so the failure is a `TypeError` and the intended message
`extract_fail_msg text` is never built. -/
def extract_json (text : String) : Except PyExc Json :=
  match jsonParse (pyStrip text) with
  | some j => .ok j
  | none =>
    match try_candidates (findallPattern1 text ++ findallPattern2 text) with
    | some j => .ok j
    | none =>
      match try_markers text with
      | some j => .ok j
      | none => .error (.typeError typeErrorMsg)

/-- `LocalMiniPestMA._create_fallback_json` (`mini_pestma_main.py`,
lines 184-214). -/
def create_fallback_json (agent_type : String) (error_msg : String) : Json :=
  if agent_type == "diagnoser" then
    .obj [
      ("primary_diagnosis", .str "Analysis failed - JSON parsing error"),
      ("primary_confidence", .num 1),
      ("alternative_diagnosis", .str "Unable to determine"),
      ("alternative_confidence", .num 1),
      ("image_text_correlation", .str "no_image"),
      ("key_symptoms_observed", .str "Parsing error occurred"),
      ("visual_evidence_quality", .str "none"),
      ("error_flags", .obj [
        ("equally_likely", .bool false),
        ("contradictory_symptoms", .bool false),
        ("insufficient_evidence", .bool true)]),
      ("diagnostic_reasoning", .str ("JSON parsing failed: " ++ error_msg))]
  else if agent_type == "validator" then
    .obj [
      ("primary_diagnosis_valid", .bool false),
      ("primary_confidence_adjustment", .num (-3)),
      ("alternative_diagnosis_preferred", .bool false),
      ("critical_concerns", .str ("Validation failed due to parsing error: " ++ error_msg)),
      ("evidence_quality_assessment", .str "weak"),
      ("overlooked_factors", .str "Unable to assess due to parsing error"),
      ("bias_detection", .str "none identified"),
      ("additional_diagnostics_needed", .str "Retry analysis with corrected prompts"),
      ("final_recommendation", .str "request_expert")]
  else .obj []

end LocalMiniPestMA

namespace StreamlitMiniPestMA

/-- `StreamlitMiniPestMA._extract_json` (`streamlit_optimized_app.py`,
lines 182-225); the cascade is the same as the CLI one, over the same
standard-library `json` and `re` behaviour. -/
def extract_json (text : String) : Except PyExc Json :=
  match jsonParse (pyStrip text) with
  | some j => .ok j
  | none =>
    match try_candidates (findallPattern1 text ++ findallPattern2 text) with
    | some j => .ok j
    | none =>
      match try_markers text with
      | some j => .ok j
      | none => .error (.typeError typeErrorMsg)

/-- `StreamlitMiniPestMA._create_fallback_json` (`streamlit_optimized_app.py`,
lines 227-257). -/
def create_fallback_json (agent_type : String) (error_msg : String) : Json :=
  if agent_type == "diagnoser" then
    .obj [
      ("primary_diagnosis", .str "Analysis failed - JSON parsing error"),
      ("primary_confidence", .num 1),
      ("alternative_diagnosis", .str "Unable to determine"),
      ("alternative_confidence", .num 1),
      ("image_text_correlation", .str "no_image"),
      ("key_symptoms_observed", .str "Parsing error occurred"),
      ("visual_evidence_quality", .str "none"),
      ("error_flags", .obj [
        ("equally_likely", .bool false),
        ("contradictory_symptoms", .bool false),
        ("insufficient_evidence", .bool true)]),
      ("diagnostic_reasoning", .str ("JSON parsing failed: " ++ error_msg))]
  else if agent_type == "validator" then
    .obj [
      ("primary_diagnosis_valid", .bool false),
      ("primary_confidence_adjustment", .num (-3)),
      ("alternative_diagnosis_preferred", .bool false),
      ("critical_concerns", .str ("Validation failed due to parsing error: " ++ error_msg)),
      ("evidence_quality_assessment", .str "weak"),
      ("overlooked_factors", .str "Unable to assess due to parsing error"),
      ("bias_detection", .str "none identified"),
      ("additional_diagnostics_needed", .str "Retry analysis with corrected prompts"),
      ("final_recommendation", .str "request_expert")]
  else .obj []

end StreamlitMiniPestMA

/-! ## The CLI orchestrator

`LocalMiniPestMA.analyze_plant_problem` (`mini_pestma_main.py`,
lines 216-388).  The external collaborator `ollama.generate` is abstracted
as an oracle `gen : StageCall → CollabResult`; a `StageCall` records the
data the source interpolates into the stage prompt (the problem
description, whether an image was attached, and the records serialized
into the stage-2 and stage-3 prompts).  The result dictionaries keep the
fields the claims are about; the wall-clock `time` and constant `model`
entries are omitted.  `self.analysis_history` is threaded as an explicit
list argument and returned next to the result dictionary. -/

/-- One `ollama.generate` invocation, identified by the data interpolated
into its prompt. -/
inductive StageCall where
  | diagnose (description : String) (imageProvided : Bool)
  | validate (description : String) (diag_json : Json)
  | advise (description : String) (diag_json : Json) (valid_json : Json)

/-- Outcome of one collaborator call: the response text, or the exception
text of a raised error. -/
inductive CollabResult where
  | ok (response : String)
  | err (msg : String)

/-- The per-stage result dictionary (union of the key sets the source
stores under `results['diagnoser']` / `results['validator']`). -/
structure StageDict where
  response_json : Option Json := none
  response_text : Option String := none
  status : String := ""
  error : Option String := none
  raw_response : Option String := none

/-- The `results['advisor']` dictionary. -/
structure AdvisorDict where
  response : Option String := none
  status : String := ""
  error : Option String := none

/-- The accumulating `results` dictionary of one run (`metadata.problem`
plus the three stage entries; absent keys are `none`). -/
structure RunResults where
  problem : String := ""
  diagnoser : Option StageDict := none
  validator : Option StageDict := none
  advisor : Option AdvisorDict := none

namespace LocalMiniPestMA

/-- Stage 3 (lines 336-373): the advisor output is free text, never
parsed; a collaborator failure here yields `status='error'` but does not
abort the run. -/
def advisorStage : CollabResult → AdvisorDict
  | .ok t => { response := some t, status := "success" }
  | .err e => { status := "error", error := some e }

/-- Assemble the finished `results` dictionary once stage 2 has resolved
`valid_json`; stage 3 always runs (lines 336-373). -/
def stage3 (gen : StageCall → CollabResult) (desc : String) (dj vj : Json)
    (diagEntry validEntry : StageDict) : RunResults :=
  { problem := desc, diagnoser := some diagEntry, validator := some validEntry,
    advisor := some (advisorStage (gen (.advise desc dj vj))) }

/-- Stage 2 (lines 277-334).  On collaborator failure, the
`except Exception` handler (line 325) synthesizes the validator fallback
locally: `status='error_recovered'`, and — as written in the source — the
entry has no `response_text`/`raw_response` key.  When the collaborator
returns text whose extraction fails, the raised exception is the
`TypeError` described at `extract_json`, which the inner
`except json.JSONDecodeError` (line 309) does not catch; it too lands in
`except Exception`. -/
def stage2 (gen : StageCall → CollabResult) (desc : String) (dj : Json)
    (diagEntry : StageDict) : RunResults :=
  match gen (.validate desc dj) with
  | .ok text =>
    match extract_json text with
    | .ok vj =>
      stage3 gen desc dj vj diagEntry
        { response_json := some vj, response_text := some text, status := "success" }
    | .error ex =>
      if ex.isJsonDecodeError then
        -- inner handler, lines 309-323 (unreachable: extraction failures
        -- are TypeErrors)
        let vj := create_fallback_json "validator" ex.msg
        stage3 gen desc dj vj diagEntry
          { response_json := some vj, response_text := some text,
            status := "json_error_recovered",
            error := some ("JSON parsing failed, using fallback: " ++ ex.msg),
            raw_response := some text }
      else
        -- outer handler, lines 325-334
        let vj := create_fallback_json "validator" ex.msg
        stage3 gen desc dj vj diagEntry
          { response_json := some vj, status := "error_recovered", error := some ex.msg }
  | .err e =>
    let vj := create_fallback_json "validator" e
    stage3 gen desc dj vj diagEntry
      { response_json := some vj, status := "error_recovered", error := some e }

/-- The full run.  Stage 1 (lines 228-275): a collaborator failure — or a
propagating `TypeError` from a failed extraction — hits the
`except Exception` handler at line 272, records `status='error'` and
returns immediately; that early return precedes the
`self.analysis_history.append(results)` at line 386, so aborted runs do
not reach the history.  All other paths fall through to the append. -/
def analyze_plant_problem (gen : StageCall → CollabResult) (user_description : String)
    (image_provided : Bool) (analysis_history : List RunResults) :
    RunResults × List RunResults :=
  match gen (.diagnose user_description image_provided) with
  | .err e =>
    ({ problem := user_description,
       diagnoser := some { status := "error", error := some e } },
     analysis_history)
  | .ok text =>
    match extract_json text with
    | .ok dj =>
      let r := stage2 gen user_description dj
        { response_json := some dj, response_text := some text, status := "success" }
      (r, analysis_history ++ [r])
    | .error ex =>
      if ex.isJsonDecodeError then
        -- inner handler, lines 256-270 (unreachable: extraction failures
        -- are TypeErrors)
        let dj := create_fallback_json "diagnoser" ex.msg
        let r := stage2 gen user_description dj
          { response_json := some dj, response_text := some text,
            status := "json_error_recovered",
            error := some ("JSON parsing failed, using fallback: " ++ ex.msg),
            raw_response := some text }
        (r, analysis_history ++ [r])
      else
        -- outer handler, line 272: status='error', early return
        ({ problem := user_description,
           diagnoser := some { status := "error", error := some ex.msg } },
         analysis_history)

end LocalMiniPestMA

/-! ## Accessors and documented scale bounds used by the claims -/

def lookupField : List (String × Json) → String → Option Json
  | [], _ => none
  | (k', v) :: rest, k => if k' == k then some v else lookupField rest k

def Json.getField : Json → String → Option Json
  | .obj fs, k => lookupField fs k
  | _, _ => none

def Json.isObj : Json → Bool
  | .obj _ => true
  | _ => false

/-- Lower end of the documented diagnosis confidence scale
(`CONFIDENCE SCALE: 1-10` in the diagnoser system prompt). -/
def confidenceScaleLo : Int := 1

/-- Lower end of the documented validator adjustment scale
(`CONFIDENCE ADJUSTMENT: -3 to +3 scale` in the validator system
prompt); the maximal penalty. -/
def adjustmentScaleLo : Int := -3

/-! ## Helper lemma -/

/-- The pattern loop flattens to one candidate list; a success among the
first pattern's matches decides the whole loop. -/
theorem try_candidates_append (l1 l2 : List String) (v : Json)
    (h : try_candidates l1 = some v) : try_candidates (l1 ++ l2) = some v := by
  induction l1 with
  | nil => simp [try_candidates] at h
  | cons m ms ih =>
    rw [List.cons_append]
    simp only [try_candidates] at h ⊢
    cases hp : jsonParse (pyStrip m) with
    | some j => rw [hp] at h; exact h
    | none => rw [hp] at h; exact ih h

/-! ## Claims -/

/-- Claim C4: for every text whose trimmed form is itself a valid
structured record, `extract` returns that record unchanged; the direct
full-text parse is the first step of the cascade and its success ends the
cascade, so the pattern-scanning and fence-scanning steps are never
reached. -/
theorem C4_direct_parse_priority (text : String) (fields : List (String × Json))
    (h : jsonParse (pyStrip text) = some (Json.obj fields)) :
    LocalMiniPestMA.extract_json text = .ok (Json.obj fields) := by
  simp [LocalMiniPestMA.extract_json, h]

theorem C4_direct_parse_priority_witness :
    jsonParse (pyStrip "\x7b\"primary_diagnosis\": \"leaf spot\", \"primary_confidence\": 7\x7d") =
      some (Json.obj [("primary_diagnosis", Json.str "leaf spot"),
                      ("primary_confidence", Json.num 7)]) ∧
    LocalMiniPestMA.extract_json "\x7b\"primary_diagnosis\": \"leaf spot\", \"primary_confidence\": 7\x7d" =
      .ok (Json.obj [("primary_diagnosis", Json.str "leaf spot"),
                     ("primary_confidence", Json.num 7)]) :=
  ⟨rfl, C4_direct_parse_priority _ _ rfl⟩

/-- Claim C9: when the whole trimmed text parses as a JSON value that is
not an object (e.g. `null`, `5`, `[1, 2]`), the first cascade step returns
that value as the extraction result, so `extract` does not uphold the
`Record | ExtractionFailure` contract at its public interface. -/
theorem C9_nonobject_extraction (text : String) (v : Json)
    (h1 : jsonParse (pyStrip text) = some v) (h2 : Json.isObj v = false) :
    LocalMiniPestMA.extract_json text = .ok v ∧ Json.isObj v = false := by
  refine ⟨?_, h2⟩
  simp [LocalMiniPestMA.extract_json, h1]

theorem C9_nonobject_extraction_witness :
    jsonParse (pyStrip "null") = some Json.null ∧
    Json.isObj Json.null = false ∧
    (LocalMiniPestMA.extract_json "null" = .ok Json.null ∧ Json.isObj Json.null = false) :=
  ⟨rfl, rfl, C9_nonobject_extraction "null" Json.null rfl rfl⟩

/-- Claim C10: the CLI and web-app implementations of the core are
extensionally equal where they overlap: `_extract_json` returns the same
result (or fails identically) on every text, and `_create_fallback_json`
produces identical records on every `(stage_kind, error_detail)` pair. -/
theorem C10_cli_web_extensional_equality :
    (∀ text, StreamlitMiniPestMA.extract_json text = LocalMiniPestMA.extract_json text) ∧
    (∀ agent_type error_msg,
      StreamlitMiniPestMA.create_fallback_json agent_type error_msg =
        LocalMiniPestMA.create_fallback_json agent_type error_msg) :=
  ⟨fun _ => rfl, fun _ _ => rfl⟩

theorem C10_cli_web_extensional_equality_witness :
    StreamlitMiniPestMA.extract_json "null" = LocalMiniPestMA.extract_json "null" ∧
    StreamlitMiniPestMA.create_fallback_json "validator" "boom" =
      LocalMiniPestMA.create_fallback_json "validator" "boom" :=
  ⟨C10_cli_web_extensional_equality.1 "null",
   C10_cli_web_extensional_equality.2 "validator" "boom"⟩

/-- Claim C3: every fallback record is biased toward caution: the
diagnosis fallback has both confidences at the scale minimum `1`,
correlation `no_image`, evidence quality `none`, and only the
`insufficient_evidence` flag set; the validation fallback has validity
`false`, adjustment at the maximal penalty `-3`, evidence assessment
`weak`, and recommendation `request_expert`. -/
theorem C3_fallback_caution_bias (error_msg : String) :
    Json.getField (LocalMiniPestMA.create_fallback_json "diagnoser" error_msg)
        "primary_confidence" = some (Json.num confidenceScaleLo) ∧
    Json.getField (LocalMiniPestMA.create_fallback_json "diagnoser" error_msg)
        "alternative_confidence" = some (Json.num confidenceScaleLo) ∧
    Json.getField (LocalMiniPestMA.create_fallback_json "diagnoser" error_msg)
        "image_text_correlation" = some (Json.str "no_image") ∧
    Json.getField (LocalMiniPestMA.create_fallback_json "diagnoser" error_msg)
        "visual_evidence_quality" = some (Json.str "none") ∧
    Json.getField (LocalMiniPestMA.create_fallback_json "diagnoser" error_msg)
        "error_flags" = some (Json.obj [
          ("equally_likely", Json.bool false),
          ("contradictory_symptoms", Json.bool false),
          ("insufficient_evidence", Json.bool true)]) ∧
    Json.getField (LocalMiniPestMA.create_fallback_json "validator" error_msg)
        "primary_diagnosis_valid" = some (Json.bool false) ∧
    Json.getField (LocalMiniPestMA.create_fallback_json "validator" error_msg)
        "primary_confidence_adjustment" = some (Json.num adjustmentScaleLo) ∧
    Json.getField (LocalMiniPestMA.create_fallback_json "validator" error_msg)
        "evidence_quality_assessment" = some (Json.str "weak") ∧
    Json.getField (LocalMiniPestMA.create_fallback_json "validator" error_msg)
        "final_recommendation" = some (Json.str "request_expert") :=
  ⟨rfl, rfl, rfl, rfl, rfl, rfl, rfl, rfl, rfl⟩

theorem C3_fallback_caution_bias_witness :
    Json.getField (LocalMiniPestMA.create_fallback_json "diagnoser" "boom")
        "primary_confidence" = some (Json.num confidenceScaleLo) ∧
    Json.getField (LocalMiniPestMA.create_fallback_json "diagnoser" "boom")
        "alternative_confidence" = some (Json.num confidenceScaleLo) ∧
    Json.getField (LocalMiniPestMA.create_fallback_json "diagnoser" "boom")
        "image_text_correlation" = some (Json.str "no_image") ∧
    Json.getField (LocalMiniPestMA.create_fallback_json "diagnoser" "boom")
        "visual_evidence_quality" = some (Json.str "none") ∧
    Json.getField (LocalMiniPestMA.create_fallback_json "diagnoser" "boom")
        "error_flags" = some (Json.obj [
          ("equally_likely", Json.bool false),
          ("contradictory_symptoms", Json.bool false),
          ("insufficient_evidence", Json.bool true)]) ∧
    Json.getField (LocalMiniPestMA.create_fallback_json "validator" "boom")
        "primary_diagnosis_valid" = some (Json.bool false) ∧
    Json.getField (LocalMiniPestMA.create_fallback_json "validator" "boom")
        "primary_confidence_adjustment" = some (Json.num adjustmentScaleLo) ∧
    Json.getField (LocalMiniPestMA.create_fallback_json "validator" "boom")
        "evidence_quality_assessment" = some (Json.str "weak") ∧
    Json.getField (LocalMiniPestMA.create_fallback_json "validator" "boom")
        "final_recommendation" = some (Json.str "request_expert") :=
  C3_fallback_caution_bias "boom"

/-- Claim C5 (counterexample): the text `Answer: {"a": "b{c"} done.`
contains exactly one valid brace-delimited record embedded in prose — the
substring is present (second conjunct) and parses (first conjunct), and no
other brace substring parses — yet `extract` does not return it: the
nesting-tolerant patterns cannot match a record with a brace character
inside a string literal (the only candidate they produce is the
non-parsing fragment), so the whole cascade fails. -/
theorem C5_scrape_tolerance_counterexample :
    jsonParse "\x7b\"a\": \"b\x7bc\"\x7d" = some (Json.obj [("a", Json.str "b\x7bc")]) ∧
    (subSplit "\x7b\"a\": \"b\x7bc\"\x7d".data
        ("Answer: \x7b\"a\": \"b\x7bc\"\x7d done.".length + 1)
        "Answer: \x7b\"a\": \"b\x7bc\"\x7d done.".data).isSome = true ∧
    findallPattern1 "Answer: \x7b\"a\": \"b\x7bc\"\x7d done." = ["\x7bc\"\x7d"] ∧
    LocalMiniPestMA.extract_json "Answer: \x7b\"a\": \"b\x7bc\"\x7d done." =
      .error (.typeError typeErrorMsg) :=
  ⟨rfl, rfl, rfl, rfl⟩

/-- Claim C5 (amended): for every text on which the direct full-text parse
fails and whose brace-scanning candidate list — the matches of the two
nesting-tolerant patterns, which can only match brace substrings with at
most one level of nesting and no brace characters inside string literals —
contains a parseable match, `extract` returns the first candidate (in
left-to-right pattern-then-match order) that parses successfully. -/
theorem C5_scrape_tolerance_amended (text : String) (v : Json)
    (h1 : jsonParse (pyStrip text) = none)
    (h2 : try_candidates (findallPattern1 text) = some v) :
    LocalMiniPestMA.extract_json text = .ok v := by
  have h3 := try_candidates_append (findallPattern1 text) (findallPattern2 text) v h2
  simp [LocalMiniPestMA.extract_json, h1, h3]

theorem C5_scrape_tolerance_witness :
    jsonParse (pyStrip "Here is my answer: \x7b\"primary_diagnosis\": \"rust\", \"primary_confidence\": 8\x7d Thank you.") = none ∧
    try_candidates (findallPattern1 "Here is my answer: \x7b\"primary_diagnosis\": \"rust\", \"primary_confidence\": 8\x7d Thank you.") =
      some (Json.obj [("primary_diagnosis", Json.str "rust"),
                      ("primary_confidence", Json.num 8)]) ∧
    LocalMiniPestMA.extract_json "Here is my answer: \x7b\"primary_diagnosis\": \"rust\", \"primary_confidence\": 8\x7d Thank you." =
      .ok (Json.obj [("primary_diagnosis", Json.str "rust"),
                     ("primary_confidence", Json.num 8)]) :=
  ⟨rfl, rfl, C5_scrape_tolerance_amended _ _ rfl rfl⟩

/-- Claim C6: on a text with no brace-delimited substring at all the whole
cascade fails, but the failure is not a `json.JSONDecodeError` carrying the
truncated text prefix: the single-argument exception construction at the
raise site fails first, so the surfaced exception is a `TypeError` whose
message does not mention the input text at all (third conjunct: the
intended prefix-carrying message, had it been built, would indeed have been
bounded by the 200-character truncation). -/
theorem C6_failure_exception_typeerror :
    LocalMiniPestMA.extract_json "The plant is probably fine." =
      .error (.typeError typeErrorMsg) ∧
    typeErrorMsg ≠ extract_fail_msg "The plant is probably fine." ∧
    (extract_fail_msg "The plant is probably fine.").length ≤
      "Could not extract valid JSON from: ".length + 200 + "...".length :=
  ⟨rfl, by decide, by decide⟩

/-- Diagnosis-stage collaborator succeeds but returns no JSON; the other
stages would answer normally. -/
def genDiagNoJson : StageCall → CollabResult := fun c =>
  match c with
  | .diagnose _ _ => .ok "I cannot determine the diagnosis."
  | _ => .ok ""

/-- Claim C1: the code contradicts the claim.  When the diagnosis response
text has no parseable candidate, `_extract_json` raises the `TypeError`
described at `extract_json` rather than a `json.JSONDecodeError`; the
inner `except json.JSONDecodeError` recovery handler is bypassed, the
outer `except Exception` records `status='error'` and returns immediately:
no fallback record is substituted, the status is not `recovered`, the
validation stage is never reached, and extraction failure is fatal. -/
theorem C1_extraction_failure_aborts_run :
    LocalMiniPestMA.analyze_plant_problem genDiagNoJson "white powdery spots on leaves" false [] =
      ({ problem := "white powdery spots on leaves",
         diagnoser := some { status := "error", error := some typeErrorMsg } }, []) :=
  rfl

/-- Claim C2: asymmetric fatality across stages.  First part: a
diagnosis-stage collaborator failure terminates the run at once — the
returned results hold only the failed diagnoser entry, no validator or
advisor entry is attempted.  Second part: a validation-stage collaborator
failure is recovered locally — the validator fallback record is
synthesized, the validator status is `error_recovered`, and the advisory
stage is still invoked on that fallback record and completed. -/
theorem C2_asymmetric_fatality (gen : StageCall → CollabResult) (desc : String)
    (img : Bool) (hist : List RunResults) :
    (∀ e, gen (.diagnose desc img) = .err e →
      LocalMiniPestMA.analyze_plant_problem gen desc img hist =
        ({ problem := desc, diagnoser := some { status := "error", error := some e } },
         hist)) ∧
    (∀ text dj e, gen (.diagnose desc img) = .ok text →
      LocalMiniPestMA.extract_json text = .ok dj →
      gen (.validate desc dj) = .err e →
      LocalMiniPestMA.analyze_plant_problem gen desc img hist =
        (let vj := LocalMiniPestMA.create_fallback_json "validator" e
         let r : RunResults :=
           { problem := desc,
             diagnoser := some { response_json := some dj, response_text := some text,
                                 status := "success" },
             validator := some { response_json := some vj, status := "error_recovered",
                                 error := some e },
             advisor := some (LocalMiniPestMA.advisorStage (gen (.advise desc dj vj))) }
         (r, hist ++ [r]))) := by
  constructor
  · intro e h
    simp [LocalMiniPestMA.analyze_plant_problem, h]
  · intro text dj e h1 h2 h3
    simp [LocalMiniPestMA.analyze_plant_problem, LocalMiniPestMA.stage2,
          LocalMiniPestMA.stage3, h1, h2, h3]

/-- Diagnosis-stage collaborator raises. -/
def genDiagFail : StageCall → CollabResult := fun c =>
  match c with
  | .diagnose _ _ => .err "connection refused"
  | _ => .ok ""

/-- Validation-stage collaborator raises; the other stages answer. -/
def genValidFail : StageCall → CollabResult := fun c =>
  match c with
  | .diagnose _ _ => .ok "\x7b\"primary_diagnosis\": \"rust\"\x7d"
  | .validate _ _ => .err "model timeout"
  | .advise _ _ _ => .ok "Advice text."

theorem C2_asymmetric_fatality_witness :
    (LocalMiniPestMA.analyze_plant_problem genDiagFail "d" false [] =
      ({ problem := "d",
         diagnoser := some { status := "error", error := some "connection refused" } },
       [])) ∧
    (LocalMiniPestMA.analyze_plant_problem genValidFail "d" false [] =
      (let vj := LocalMiniPestMA.create_fallback_json "validator" "model timeout"
       let r : RunResults :=
         { problem := "d",
           diagnoser := some { response_json := some (Json.obj [("primary_diagnosis", Json.str "rust")]),
                               response_text := some "\x7b\"primary_diagnosis\": \"rust\"\x7d",
                               status := "success" },
           validator := some { response_json := some vj, status := "error_recovered",
                               error := some "model timeout" },
           advisor := some (LocalMiniPestMA.advisorStage
             (genValidFail (.advise "d" (Json.obj [("primary_diagnosis", Json.str "rust")]) vj))) }
       (r, [] ++ [r]))) :=
  ⟨(C2_asymmetric_fatality genDiagFail "d" false []).1 "connection refused" rfl,
   (C2_asymmetric_fatality genValidFail "d" false []).2
     "\x7b\"primary_diagnosis\": \"rust\"\x7d"
     (Json.obj [("primary_diagnosis", Json.str "rust")]) "model timeout" rfl rfl rfl⟩

/-- Validation-stage collaborator returns text that holds no parseable
record; the other stages answer normally. -/
def genValidatorRefuses : StageCall → CollabResult := fun c =>
  match c with
  | .diagnose _ _ => .ok "\x7b\"primary_diagnosis\": \"early blight\", \"primary_confidence\": 6\x7d"
  | .validate _ _ => .ok "I refuse to comply."
  | .advise _ _ _ => .ok "Final recommendations."

/-- Claim C7: the code contradicts the claim.  The validator collaborator
returns the text `I refuse to comply.` (first conjunct), extraction of it
fails with the `TypeError` described at `extract_json`, and the
`except Exception` handler stores a validator entry with
`status='error_recovered'` that has no `response_text`/`raw_response`
key (second and third conjuncts): the untouched model output is dropped,
not retained, for this status. -/
theorem C7_raw_text_dropped :
    genValidatorRefuses (.validate "d"
        (Json.obj [("primary_diagnosis", Json.str "early blight"),
                   ("primary_confidence", Json.num 6)])) = .ok "I refuse to comply." ∧
    (LocalMiniPestMA.analyze_plant_problem genValidatorRefuses "d" false []).1.validator =
      some { response_json := some (LocalMiniPestMA.create_fallback_json "validator" typeErrorMsg),
             status := "error_recovered", error := some typeErrorMsg } ∧
    Option.map StageDict.response_text
        (LocalMiniPestMA.analyze_plant_problem genValidatorRefuses "d" false []).1.validator =
      some none :=
  ⟨rfl, rfl, rfl⟩

/-- Diagnosis-stage collaborator is down. -/
def genDiagDown : StageCall → CollabResult := fun c =>
  match c with
  | .diagnose _ _ => .err "model not found"
  | _ => .ok ""

/-- Claim C8 (counterexample): a run aborted by a diagnosis-stage
collaborator failure reaches the terminal ABORTED state (its diagnoser
entry records the failure) but is not appended to the history: the early
return at the diagnosis stage precedes the
`self.analysis_history.append(results)` statement, so the history is left
unchanged — the claim says such a run is still appended. -/
theorem C8_history_append_counterexample :
    (LocalMiniPestMA.analyze_plant_problem genDiagDown "d" false []).2 = [] ∧
    (LocalMiniPestMA.analyze_plant_problem genDiagDown "d" false []).1.diagnoser =
      some { status := "error", error := some "model not found" } :=
  ⟨rfl, rfl⟩

/-- Claim C8 (amended): in the CLI implementation, every run that
completes the pipeline appends its results to the shared history exactly
once (left disjunct), while a run aborted at the diagnosis stage —
collaborator failure, or the fatal extraction `TypeError` — returns before
the append and leaves the history unchanged, with no validator or advisor
entry attempted (right disjunct).  (The web interface's caller, by
contrast, appends every returned run, including aborted ones.) -/
theorem C8_history_append_amended (gen : StageCall → CollabResult) (desc : String)
    (img : Bool) (hist : List RunResults) :
    ((LocalMiniPestMA.analyze_plant_problem gen desc img hist).2 =
      hist ++ [(LocalMiniPestMA.analyze_plant_problem gen desc img hist).1]) ∨
    ((LocalMiniPestMA.analyze_plant_problem gen desc img hist).2 = hist ∧
      (LocalMiniPestMA.analyze_plant_problem gen desc img hist).1.validator = none ∧
      (LocalMiniPestMA.analyze_plant_problem gen desc img hist).1.advisor = none) := by
  cases hg : gen (.diagnose desc img) with
  | err e => right; simp [LocalMiniPestMA.analyze_plant_problem, hg]
  | ok text =>
    cases he : LocalMiniPestMA.extract_json text with
    | ok dj => left; simp [LocalMiniPestMA.analyze_plant_problem, hg, he]
    | error ex =>
      cases ex with
      | jsonDecodeError m =>
        left
        simp [LocalMiniPestMA.analyze_plant_problem, hg, he, PyExc.isJsonDecodeError]
      | typeError m =>
        right
        simp [LocalMiniPestMA.analyze_plant_problem, hg, he, PyExc.isJsonDecodeError]

theorem C8_history_append_amended_witness :
    ((LocalMiniPestMA.analyze_plant_problem genDiagDown "d" false []).2 =
      [] ++ [(LocalMiniPestMA.analyze_plant_problem genDiagDown "d" false []).1]) ∨
    ((LocalMiniPestMA.analyze_plant_problem genDiagDown "d" false []).2 = [] ∧
      (LocalMiniPestMA.analyze_plant_problem genDiagDown "d" false []).1.validator = none ∧
      (LocalMiniPestMA.analyze_plant_problem genDiagDown "d" false []).1.advisor = none) :=
  C8_history_append_amended genDiagDown "d" false []
